import Mathlib

/-!
Verification of the grand-central-station message-sync frontend and of the
spec-level sync-engine policies, against a shallow embedding of the sources:
- src/frontend/src/types/index.ts          (data model)
- src/frontend/src/store/useAppStore.ts    (zustand store actions)
- src/frontend/src/services/realtime.ts    (RealtimeService polling loop)
- src/unnamed/part_000 (ChatSidebar)       (category filtering)
- src/frontend/src/components/Layout/CategorySidebar.tsx (ChatInterface rendering)
JS strings are modelled as Lean Strings; character-level operations
(`.length`, `.slice`) act on the underlying character list (`String.data`),
matching JS per-code-unit semantics on the ASCII/BMP content involved.
JS objects used as string-keyed maps are modelled as total functions with
default `[]`, matching the code's uniform use of `state.messages[chatId] || []`.
-/

/-- `MessageDirection` from src/frontend/src/types/index.ts:
`type MessageDirection = 'INCOMING' | 'OUTGOING'`. -/
inductive MessageDirection where
  | INCOMING
  | OUTGOING
deriving DecidableEq, Repr

/-- `MessageStatus` from src/frontend/src/types/index.ts. -/
inductive MessageStatus where
  | PENDING
  | SENT
  | DELIVERED
  | READ
  | FAILED
deriving DecidableEq, Repr

/-- `ChatCategory` from src/frontend/src/types/index.ts:
`type ChatCategory = 'work' | 'personal' | 'hookups'`. -/
inductive ChatCategory where
  | work
  | personal
  | hookups
deriving DecidableEq, Repr

/-- `Platform` from src/frontend/src/types/index.ts. -/
structure Platform where
  id : String
  name : String
  display_name : String
  icon_url : Option String
  is_active : Bool
deriving DecidableEq, Repr

/-- `Profile` from src/frontend/src/types/index.ts. -/
structure Profile where
  id : String
  platform_id : String
  name : String
  username : Option String
  avatar_url : Option String
  bio : Option String
  location : Option String
  is_active : Bool
deriving DecidableEq, Repr

/-- `Message` from src/frontend/src/types/index.ts. -/
structure Message where
  id : String
  chat_id : String
  platform_message_id : Option String
  direction : MessageDirection
  status : Option MessageStatus
  content : Option String
  content_type : Option String
  is_deleted : Bool
  ai_generated : Bool
  platform_timestamp : Option String
  delivered_at : Option String
  read_at : Option String
  created_at : String
  is_reply : Bool
  reply_to_content : Option String
  sender_name : Option String
deriving DecidableEq, Repr

/-- `Chat` from src/frontend/src/types/index.ts. -/
structure Chat where
  id : String
  account_id : String
  profile_id : String
  platform_chat_id : String
  category : Option ChatCategory
  is_active : Bool
  is_archived : Bool
  is_starred : Bool
  is_muted : Bool
  unread_count : Nat
  last_message_at : Option String
  created_at : String
  updated_at : String
  profile : Option Profile
  platform : Option Platform
  last_message : Option Message
deriving DecidableEq, Repr

/-- Quoted-reply rendering from ChatInterface
(src/frontend/src/components/Layout/CategorySidebar.tsx, lines 420-436):
shown only when `message.is_reply && message.reply_to_content` is truthy
(present and non-empty), and then
`reply_to_content.length > 100 ? reply_to_content.slice(0, 100) + '...' : reply_to_content`. -/
def renderQuotedReply (m : Message) : Option (List Char) :=
  match m.reply_to_content with
  | none => none
  | some r =>
      if m.is_reply && !(r == "") then
        some (if r.data.length > 100 then r.data.take 100 ++ ('.' :: '.' :: '.' :: []) else r.data)
      else
        none

/-- Category filter predicate from `ChatSidebar.filteredChats`
(src/unnamed/part_000, lines 80-94).  The source's trailing `return true`
is unreachable because `selectedCategory : ChatCategory` has exactly the
three values matched here. -/
def categoryFilterPred (cat : ChatCategory) (chat : Chat) : Bool :=
  match cat with
  | ChatCategory.work =>
      (match chat.platform with
       | some p => p.name == "alibaba"
       | none => false)
  | ChatCategory.personal =>
      (match chat.platform with
       | some p => p.name == "whatsapp"
       | none => false)
      ||
      (match chat.platform with
       | some p => p.name == "telegram"
       | none => false)
  | ChatCategory.hookups =>
      (match chat.platform with
       | some p => p.name == "grindr"
       | none => false)
      ||
      (match chat.platform with
       | some p => p.name == "tinder"
       | none => false)

/-- `filteredChats` from `ChatSidebar` (src/unnamed/part_000, lines 80-94):
the chats displayed for the selected category. -/
def filteredChats (cat : ChatCategory) (chats : List Chat) : List Chat :=
  chats.filter (categoryFilterPred cat)

/-- `AppState` from src/frontend/src/types/index.ts, which is the state held
by the zustand store of src/frontend/src/store/useAppStore.ts.  The
`messages` object keyed by chat id is modelled as a total function with
default `[]` (the code reads it uniformly as `state.messages[chatId] || []`);
the `loading` record is flattened into its three fields. -/
structure AppState where
  selectedCategory : ChatCategory
  selectedChatId : Option String
  sidebarCollapsed : Bool
  chats : List Chat
  messages : String → List Message
  profiles : List Profile
  platforms : List Platform
  loadingChats : Bool
  loadingMessages : Bool
  loadingSending : Bool
  error : Option String

/-- `Partial<Chat>` as used by `updateChat(chatId, updates)`
(src/frontend/src/store/useAppStore.ts, lines 59-63): each Chat field is
either absent (`none`) or present with a value. -/
structure ChatUpdates where
  id : Option String := none
  account_id : Option String := none
  profile_id : Option String := none
  platform_chat_id : Option String := none
  category : Option (Option ChatCategory) := none
  is_active : Option Bool := none
  is_archived : Option Bool := none
  is_starred : Option Bool := none
  is_muted : Option Bool := none
  unread_count : Option Nat := none
  last_message_at : Option (Option String) := none
  created_at : Option String := none
  updated_at : Option String := none
  profile : Option (Option Profile) := none
  platform : Option (Option Platform) := none
  last_message : Option (Option Message) := none

/-- The object spread `{ ...chat, ...updates }` in `updateChat`:
every field present in `updates` overrides the chat's field. -/
def applyChatUpdates (c : Chat) (u : ChatUpdates) : Chat :=
  { id := u.id.getD c.id,
    account_id := u.account_id.getD c.account_id,
    profile_id := u.profile_id.getD c.profile_id,
    platform_chat_id := u.platform_chat_id.getD c.platform_chat_id,
    category := u.category.getD c.category,
    is_active := u.is_active.getD c.is_active,
    is_archived := u.is_archived.getD c.is_archived,
    is_starred := u.is_starred.getD c.is_starred,
    is_muted := u.is_muted.getD c.is_muted,
    unread_count := u.unread_count.getD c.unread_count,
    last_message_at := u.last_message_at.getD c.last_message_at,
    created_at := u.created_at.getD c.created_at,
    updated_at := u.updated_at.getD c.updated_at,
    profile := u.profile.getD c.profile,
    platform := u.platform.getD c.platform,
    last_message := u.last_message.getD c.last_message }

/-- `updateChat` from src/frontend/src/store/useAppStore.ts, lines 59-63:
`set((state) => ({ chats: state.chats.map(chat => chat.id === chatId ?
{ ...chat, ...updates } : chat) }))`. -/
def updateChat (s : AppState) (chatId : String) (updates : ChatUpdates) : AppState :=
  { s with
    chats := s.chats.map (fun chat =>
      if chat.id == chatId then applyChatUpdates chat updates else chat) }

/-- `addMessage` from src/frontend/src/store/useAppStore.ts, lines 72-77:
`{ messages: { ...state.messages, [chatId]: [...(state.messages[chatId] || []), message] } }`. -/
def addMessage (s : AppState) (chatId : String) (message : Message) : AppState :=
  { s with
    messages := fun c =>
      if c == chatId then s.messages chatId ++ [message] else s.messages c }

lemma updateChat_messages_eq (s : AppState) (chatId : String) (u : ChatUpdates) :
    (updateChat s chatId u).messages = s.messages := rfl

lemma map_chatUpdate_eq_of_no_match (l : List Chat) (chatId : String) (u : ChatUpdates)
    (h : ∀ c ∈ l, c.id ≠ chatId) :
    l.map (fun chat => if chat.id == chatId then applyChatUpdates chat u else chat) = l := by
  induction l with
  | nil => rfl
  | cons a t ih =>
      have ha : (a.id == chatId) = false :=
        beq_eq_false_iff_ne.mpr (h a (List.mem_cons_self a t))
      simp only [List.map_cons, ha, Bool.false_eq_true, if_false]
      rw [ih (fun c hc => h c (List.mem_cons_of_mem a hc))]

/-- C8: for every message with `is_reply` true and a non-empty
`reply_to_content`, the rendered quoted text is produced, never exceeds 103
characters, is passed through unchanged when its length is at most 100, and
otherwise is exactly the first 100 characters followed by the three-dot
ellipsis (giving length exactly 103). -/
theorem c8_reply_truncation_bounded (m : Message) (r : String)
    (hr : m.reply_to_content = some r) (hreply : m.is_reply = true) (hne : r ≠ "") :
    ∃ out, renderQuotedReply m = some out ∧
      out.length ≤ 103 ∧
      (r.data.length ≤ 100 → out = r.data) ∧
      (r.data.length > 100 →
        out = r.data.take 100 ++ ('.' :: '.' :: '.' :: []) ∧ out.length = 103) := by
  have hbe : (r == "") = false := by
    simp [beq_eq_false_iff_ne, hne]
  refine ⟨if r.data.length > 100 then r.data.take 100 ++ ('.' :: '.' :: '.' :: []) else r.data,
    ?_, ?_, ?_, ?_⟩
  · simp [renderQuotedReply, hr, hreply, hbe]
  · by_cases h : r.data.length > 100
    · rw [if_pos h]
      simp only [List.length_append, List.length_take, List.length_cons, List.length_nil]
      omega
    · rw [if_neg h]
      omega
  · intro hle
    have h : ¬ r.data.length > 100 := by omega
    rw [if_neg h]
  · intro hgt
    rw [if_pos hgt]
    refine ⟨rfl, ?_⟩
    simp only [List.length_append, List.length_take, List.length_cons, List.length_nil]
    omega

/-- Witness for C8 at a concrete message whose quoted text has 101
characters. -/
theorem c8_reply_truncation_bounded_witness :
    ∃ out,
      renderQuotedReply
        { id := "m1", chat_id := "c1", platform_message_id := none,
          direction := MessageDirection.INCOMING, status := none,
          content := some "hello", content_type := none, is_deleted := false,
          ai_generated := false, platform_timestamp := none,
          delivered_at := none, read_at := none, created_at := "t",
          is_reply := true,
          reply_to_content := some (String.mk (List.replicate 101 'a')),
          sender_name := none } = some out ∧
      out.length ≤ 103 ∧
      ((String.mk (List.replicate 101 'a')).data.length ≤ 100 →
        out = (String.mk (List.replicate 101 'a')).data) ∧
      ((String.mk (List.replicate 101 'a')).data.length > 100 →
        out = (String.mk (List.replicate 101 'a')).data.take 100 ++ ('.' :: '.' :: '.' :: []) ∧
        out.length = 103) :=
  c8_reply_truncation_bounded _ _ rfl rfl (by decide)

/-- C10: every chat displayed under a selectable category has a platform
whose name lies in that category's fixed set (work: alibaba; personal:
whatsapp or telegram; hookups: grindr or tinder); and a chat whose platform
name is none of those five is displayed under no category at all. -/
theorem c10_category_filter_exhaustive_over_five_platforms
    (chats : List Chat) (c0 : Chat)
    (h : ∀ p, c0.platform = some p →
      ¬ p.name ∈ ["alibaba", "whatsapp", "telegram", "grindr", "tinder"]) :
    (∀ c ∈ filteredChats ChatCategory.work chats,
      ∃ p, c.platform = some p ∧ p.name = "alibaba") ∧
    (∀ c ∈ filteredChats ChatCategory.personal chats,
      ∃ p, c.platform = some p ∧ (p.name = "whatsapp" ∨ p.name = "telegram")) ∧
    (∀ c ∈ filteredChats ChatCategory.hookups chats,
      ∃ p, c.platform = some p ∧ (p.name = "grindr" ∨ p.name = "tinder")) ∧
    (∀ cat, ¬ c0 ∈ filteredChats cat chats) := by
  refine ⟨?_, ?_, ?_, ?_⟩
  · intro c hc
    have hp := (List.mem_filter.mp hc).2
    cases hpl : c.platform with
    | none => rw [categoryFilterPred, hpl] at hp; simp at hp
    | some p =>
        refine ⟨p, rfl, ?_⟩
        rw [categoryFilterPred, hpl] at hp
        exact eq_of_beq hp
  · intro c hc
    have hp := (List.mem_filter.mp hc).2
    cases hpl : c.platform with
    | none => rw [categoryFilterPred, hpl] at hp; simp at hp
    | some p =>
        refine ⟨p, rfl, ?_⟩
        rw [categoryFilterPred, hpl] at hp
        rcases Bool.or_eq_true_iff.mp hp with h1 | h1
        · exact Or.inl (eq_of_beq h1)
        · exact Or.inr (eq_of_beq h1)
  · intro c hc
    have hp := (List.mem_filter.mp hc).2
    cases hpl : c.platform with
    | none => rw [categoryFilterPred, hpl] at hp; simp at hp
    | some p =>
        refine ⟨p, rfl, ?_⟩
        rw [categoryFilterPred, hpl] at hp
        rcases Bool.or_eq_true_iff.mp hp with h1 | h1
        · exact Or.inl (eq_of_beq h1)
        · exact Or.inr (eq_of_beq h1)
  · intro cat hc
    have hp := (List.mem_filter.mp hc).2
    cases hpl : c0.platform with
    | none => cases cat <;> (rw [categoryFilterPred, hpl] at hp; simp at hp)
    | some p =>
        have hnm := h p hpl
        simp only [List.mem_cons, List.not_mem_nil] at hnm
        push_neg at hnm
        obtain ⟨h1, h2, h3, h4, h5, -⟩ := hnm
        cases cat <;>
          (rw [categoryFilterPred, hpl] at hp;
           simp only [Bool.or_eq_true_iff, beq_iff_eq] at hp) <;>
          tauto

/-- A concrete chat on an unlisted platform, used by the C10 witness. -/
def signalChat : Chat :=
  { id := "chat-signal", account_id := "a1", profile_id := "p1",
    platform_chat_id := "pc1", category := none, is_active := true,
    is_archived := false, is_starred := false, is_muted := false,
    unread_count := 0, last_message_at := none, created_at := "t0",
    updated_at := "t0",
    profile := none,
    platform := some
      { id := "pl-signal", name := "signal", display_name := "Signal",
        icon_url := none, is_active := true },
    last_message := none }

/-- Witness for C10 at a one-chat list whose platform is `signal`. -/
theorem c10_category_filter_exhaustive_over_five_platforms_witness :
    (∀ c ∈ filteredChats ChatCategory.work [signalChat],
      ∃ p, c.platform = some p ∧ p.name = "alibaba") ∧
    (∀ c ∈ filteredChats ChatCategory.personal [signalChat],
      ∃ p, c.platform = some p ∧ (p.name = "whatsapp" ∨ p.name = "telegram")) ∧
    (∀ c ∈ filteredChats ChatCategory.hookups [signalChat],
      ∃ p, c.platform = some p ∧ (p.name = "grindr" ∨ p.name = "tinder")) ∧
    (∀ cat, ¬ signalChat ∈ filteredChats cat [signalChat]) :=
  c10_category_filter_exhaustive_over_five_platforms [signalChat] signalChat
    (by intro p hp; cases hp; decide)

/-- C9: `updateChat(chatId, updates)` is frame-preserving: every store field
other than `chats` is unchanged; the chat list keeps its length and every
entry whose id differs from `chatId` is unchanged, while an entry whose id
equals `chatId` becomes the spread `{ ...chat, ...updates }`; within an
updated chat every field absent from `updates` keeps its value; and if no
chat has the given id the chat list is unchanged. -/
theorem c9_updateChat_frame (s : AppState) (chatId : String) (u : ChatUpdates) :
    (updateChat s chatId u).selectedCategory = s.selectedCategory ∧
    (updateChat s chatId u).selectedChatId = s.selectedChatId ∧
    (updateChat s chatId u).sidebarCollapsed = s.sidebarCollapsed ∧
    (updateChat s chatId u).messages = s.messages ∧
    (updateChat s chatId u).profiles = s.profiles ∧
    (updateChat s chatId u).platforms = s.platforms ∧
    (updateChat s chatId u).loadingChats = s.loadingChats ∧
    (updateChat s chatId u).loadingMessages = s.loadingMessages ∧
    (updateChat s chatId u).loadingSending = s.loadingSending ∧
    (updateChat s chatId u).error = s.error ∧
    (updateChat s chatId u).chats.length = s.chats.length ∧
    (∀ (i : Nat) (c : Chat), s.chats[i]? = some c → c.id ≠ chatId →
      (updateChat s chatId u).chats[i]? = some c) ∧
    (∀ (i : Nat) (c : Chat), s.chats[i]? = some c → c.id = chatId →
      (updateChat s chatId u).chats[i]? = some (applyChatUpdates c u)) ∧
    (∀ c : Chat,
      (u.id = none → (applyChatUpdates c u).id = c.id) ∧
      (u.account_id = none → (applyChatUpdates c u).account_id = c.account_id) ∧
      (u.profile_id = none → (applyChatUpdates c u).profile_id = c.profile_id) ∧
      (u.platform_chat_id = none → (applyChatUpdates c u).platform_chat_id = c.platform_chat_id) ∧
      (u.category = none → (applyChatUpdates c u).category = c.category) ∧
      (u.is_active = none → (applyChatUpdates c u).is_active = c.is_active) ∧
      (u.is_archived = none → (applyChatUpdates c u).is_archived = c.is_archived) ∧
      (u.is_starred = none → (applyChatUpdates c u).is_starred = c.is_starred) ∧
      (u.is_muted = none → (applyChatUpdates c u).is_muted = c.is_muted) ∧
      (u.unread_count = none → (applyChatUpdates c u).unread_count = c.unread_count) ∧
      (u.last_message_at = none → (applyChatUpdates c u).last_message_at = c.last_message_at) ∧
      (u.created_at = none → (applyChatUpdates c u).created_at = c.created_at) ∧
      (u.updated_at = none → (applyChatUpdates c u).updated_at = c.updated_at) ∧
      (u.profile = none → (applyChatUpdates c u).profile = c.profile) ∧
      (u.platform = none → (applyChatUpdates c u).platform = c.platform) ∧
      (u.last_message = none → (applyChatUpdates c u).last_message = c.last_message)) ∧
    ((∀ c ∈ s.chats, c.id ≠ chatId) → (updateChat s chatId u).chats = s.chats) := by
  refine ⟨rfl, rfl, rfl, rfl, rfl, rfl, rfl, rfl, rfl, rfl, ?_, ?_, ?_, ?_, ?_⟩
  · simp [updateChat]
  · intro i c hc hne
    simp only [updateChat, List.getElem?_map, hc, Option.map_some, Option.map]
    rw [if_neg (by simp [hne])]
  · intro i c hc heq
    simp only [updateChat, List.getElem?_map, hc, Option.map_some, Option.map]
    rw [if_pos (by simp [heq])]
  · intro c
    refine ⟨?_, ?_, ?_, ?_, ?_, ?_, ?_, ?_, ?_, ?_, ?_, ?_, ?_, ?_, ?_, ?_⟩ <;>
      (intro h; simp [applyChatUpdates, h])
  · intro h
    show s.chats.map _ = s.chats
    exact map_chatUpdate_eq_of_no_match s.chats chatId u h

/-- A concrete store state used by the C9 and poll-loop witnesses. -/
def sampleState : AppState :=
  { selectedCategory := ChatCategory.work,
    selectedChatId := some "chat-signal",
    sidebarCollapsed := false,
    chats := [signalChat],
    messages := fun _ => [],
    profiles := [],
    platforms := [],
    loadingChats := false,
    loadingMessages := false,
    loadingSending := false,
    error := none }

/-- Witness for C9 at a concrete state, chat id and partial update. -/
theorem c9_updateChat_frame_witness :
    (updateChat sampleState "chat-signal" { unread_count := some 3 }).selectedCategory
        = sampleState.selectedCategory ∧
    (updateChat sampleState "chat-signal" { unread_count := some 3 }).selectedChatId
        = sampleState.selectedChatId ∧
    (updateChat sampleState "chat-signal" { unread_count := some 3 }).sidebarCollapsed
        = sampleState.sidebarCollapsed ∧
    (updateChat sampleState "chat-signal" { unread_count := some 3 }).messages
        = sampleState.messages ∧
    (updateChat sampleState "chat-signal" { unread_count := some 3 }).profiles
        = sampleState.profiles ∧
    (updateChat sampleState "chat-signal" { unread_count := some 3 }).platforms
        = sampleState.platforms ∧
    (updateChat sampleState "chat-signal" { unread_count := some 3 }).loadingChats
        = sampleState.loadingChats ∧
    (updateChat sampleState "chat-signal" { unread_count := some 3 }).loadingMessages
        = sampleState.loadingMessages ∧
    (updateChat sampleState "chat-signal" { unread_count := some 3 }).loadingSending
        = sampleState.loadingSending ∧
    (updateChat sampleState "chat-signal" { unread_count := some 3 }).error
        = sampleState.error ∧
    (updateChat sampleState "chat-signal" { unread_count := some 3 }).chats.length
        = sampleState.chats.length ∧
    (∀ (i : Nat) (c : Chat), sampleState.chats[i]? = some c → c.id ≠ "chat-signal" →
      (updateChat sampleState "chat-signal" { unread_count := some 3 }).chats[i]? = some c) ∧
    (∀ (i : Nat) (c : Chat), sampleState.chats[i]? = some c → c.id = "chat-signal" →
      (updateChat sampleState "chat-signal" { unread_count := some 3 }).chats[i]?
        = some (applyChatUpdates c { unread_count := some 3 })) ∧
    (∀ c : Chat,
      (({ unread_count := some 3 } : ChatUpdates).id = none →
        (applyChatUpdates c { unread_count := some 3 }).id = c.id) ∧
      (({ unread_count := some 3 } : ChatUpdates).account_id = none →
        (applyChatUpdates c { unread_count := some 3 }).account_id = c.account_id) ∧
      (({ unread_count := some 3 } : ChatUpdates).profile_id = none →
        (applyChatUpdates c { unread_count := some 3 }).profile_id = c.profile_id) ∧
      (({ unread_count := some 3 } : ChatUpdates).platform_chat_id = none →
        (applyChatUpdates c { unread_count := some 3 }).platform_chat_id = c.platform_chat_id) ∧
      (({ unread_count := some 3 } : ChatUpdates).category = none →
        (applyChatUpdates c { unread_count := some 3 }).category = c.category) ∧
      (({ unread_count := some 3 } : ChatUpdates).is_active = none →
        (applyChatUpdates c { unread_count := some 3 }).is_active = c.is_active) ∧
      (({ unread_count := some 3 } : ChatUpdates).is_archived = none →
        (applyChatUpdates c { unread_count := some 3 }).is_archived = c.is_archived) ∧
      (({ unread_count := some 3 } : ChatUpdates).is_starred = none →
        (applyChatUpdates c { unread_count := some 3 }).is_starred = c.is_starred) ∧
      (({ unread_count := some 3 } : ChatUpdates).is_muted = none →
        (applyChatUpdates c { unread_count := some 3 }).is_muted = c.is_muted) ∧
      (({ unread_count := some 3 } : ChatUpdates).unread_count = none →
        (applyChatUpdates c { unread_count := some 3 }).unread_count = c.unread_count) ∧
      (({ unread_count := some 3 } : ChatUpdates).last_message_at = none →
        (applyChatUpdates c { unread_count := some 3 }).last_message_at = c.last_message_at) ∧
      (({ unread_count := some 3 } : ChatUpdates).created_at = none →
        (applyChatUpdates c { unread_count := some 3 }).created_at = c.created_at) ∧
      (({ unread_count := some 3 } : ChatUpdates).updated_at = none →
        (applyChatUpdates c { unread_count := some 3 }).updated_at = c.updated_at) ∧
      (({ unread_count := some 3 } : ChatUpdates).profile = none →
        (applyChatUpdates c { unread_count := some 3 }).profile = c.profile) ∧
      (({ unread_count := some 3 } : ChatUpdates).platform = none →
        (applyChatUpdates c { unread_count := some 3 }).platform = c.platform) ∧
      (({ unread_count := some 3 } : ChatUpdates).last_message = none →
        (applyChatUpdates c { unread_count := some 3 }).last_message = c.last_message)) ∧
    ((∀ c ∈ sampleState.chats, c.id ≠ "chat-signal") →
      (updateChat sampleState "chat-signal" { unread_count := some 3 }).chats
        = sampleState.chats) :=
  c9_updateChat_frame sampleState "chat-signal" { unread_count := some 3 }

/-- The new-message filter of `RealtimeService.pollForUpdates`
(src/frontend/src/services/realtime.ts, lines 95-97 and 125-127):
`messages.filter(msg => !currentMessages.some(existing => existing.id === msg.id))`. -/
def filterNewMessages (fetched currentMessages : List Message) : List Message :=
  fetched.filter (fun msg =>
    !(currentMessages.any (fun existing => existing.id == msg.id)))

/-- The per-chat body of the active-chat loop in `pollForUpdates`
(src/frontend/src/services/realtime.ts, lines 90-113): filter the fetched
messages against the stored ones, append the new ones via `addMessage`, and
when any were new update the chat's last-message metadata via `updateChat`. -/
def pollChat (s : AppState) (chatId : String) (fetched : List Message) : AppState :=
  let currentMessages := s.messages chatId
  let newMessages := filterNewMessages fetched currentMessages
  if newMessages.isEmpty then s
  else
    let s1 := newMessages.foldl (fun st m => addMessage st chatId m) s
    match fetched.head? with
    | some latest =>
        updateChat s1 chatId
          { last_message_at := some (some latest.created_at),
            last_message := some (some latest),
            unread_count := some (match latest.direction with
              | MessageDirection.INCOMING =>
                  if currentMessages.length > 0 then 1 else newMessages.length
              | MessageDirection.OUTGOING => 0) }
    | none => s1

/-- The selected-chat body of `pollForUpdates`
(src/frontend/src/services/realtime.ts, lines 121-129): same filter and
`addMessage` calls but no chat-metadata update. -/
def pollSelected (s : AppState) (selId : String) (fetched : List Message) : AppState :=
  let currentMessages := s.messages selId
  let newMessages := filterNewMessages fetched currentMessages
  newMessages.foldl (fun st m => addMessage st selId m) s

/-- `activeChatIds` from `pollForUpdates`
(src/frontend/src/services/realtime.ts, lines 83-86):
`chats.filter(chat => chat.is_active).map(chat => chat.id).slice(0, 5)`. -/
def activeChatIds (s : AppState) : List String :=
  ((s.chats.filter (fun chat => chat.is_active)).map (fun chat => chat.id)).take 5

/-- One iteration of the active-chat loop with its per-chat `try/catch`
(src/frontend/src/services/realtime.ts, lines 88-117): a failing
`messageAPI.getMessages` call is caught and leaves the store untouched. -/
def pollChatCaught (fetch : String → Except String (List Message))
    (s : AppState) (chatId : String) : AppState :=
  match fetch chatId with
  | Except.error _ => s
  | Except.ok msgs => pollChat s chatId msgs

/-- The selected-chat step with its `try/catch`
(src/frontend/src/services/realtime.ts, lines 120-133). -/
def pollSelectedCaught (fetch : String → Except String (List Message))
    (s : AppState) (selId : String) : AppState :=
  match fetch selId with
  | Except.error _ => s
  | Except.ok msgs => pollSelected s selId msgs

/-- `RealtimeService.pollForUpdates` (src/frontend/src/services/realtime.ts,
lines 76-140), with the remote call `messageAPI.getMessages(chatId, 10)`
abstracted as the oracle `fetch`: loop over the first 5 active chat ids,
then additionally poll the selected chat when it is not among them. -/
def pollForUpdates (fetch : String → Except String (List Message))
    (s : AppState) : AppState :=
  let ids := activeChatIds s
  let s1 := ids.foldl (pollChatCaught fetch) s
  match s.selectedChatId with
  | some sel => if ids.contains sel then s1 else pollSelectedCaught fetch s1 sel
  | none => s1

/-- The chat ids on which `pollForUpdates` invokes the remote fetch:
the active ids plus the selected chat when not already included
(src/frontend/src/services/realtime.ts, lines 88, 120). -/
def polledChatIds (s : AppState) : List String :=
  let ids := activeChatIds s
  ids ++ (match s.selectedChatId with
          | some sel => if ids.contains sel then [] else [sel]
          | none => [])

lemma addMessage_messages_self (s : AppState) (chatId : String) (m : Message) :
    (addMessage s chatId m).messages chatId = s.messages chatId ++ [m] := by
  simp [addMessage]

lemma addMessage_messages_other (s : AppState) (chatId c : String) (m : Message)
    (h : c ≠ chatId) :
    (addMessage s chatId m).messages c = s.messages c := by
  simp only [addMessage]
  rw [if_neg (by simp [h])]

lemma foldl_addMessage_messages_self (chatId : String) (ms : List Message) (s : AppState) :
    ((ms.foldl (fun st m => addMessage st chatId m) s).messages chatId)
      = s.messages chatId ++ ms := by
  induction ms generalizing s with
  | nil => simp
  | cons m t ih =>
      rw [List.foldl_cons, ih, addMessage_messages_self]
      simp

lemma foldl_addMessage_messages_other (chatId c : String) (ms : List Message) (s : AppState)
    (h : c ≠ chatId) :
    ((ms.foldl (fun st m => addMessage st chatId m) s).messages c) = s.messages c := by
  induction ms generalizing s with
  | nil => rfl
  | cons m t ih =>
      rw [List.foldl_cons, ih, addMessage_messages_other _ _ _ _ h]

lemma pollChat_messages_self (s : AppState) (chatId : String) (fetched : List Message) :
    (pollChat s chatId fetched).messages chatId
      = s.messages chatId ++ filterNewMessages fetched (s.messages chatId) := by
  rw [pollChat]
  by_cases he : (filterNewMessages fetched (s.messages chatId)).isEmpty
  · rw [if_pos he]
    rw [List.isEmpty_iff.mp he]
    simp
  · rw [if_neg he]
    cases fetched.head? with
    | some latest =>
        simp only [updateChat_messages_eq]
        exact foldl_addMessage_messages_self _ _ _
    | none => exact foldl_addMessage_messages_self _ _ _

lemma pollChat_messages_other (s : AppState) (chatId c : String) (fetched : List Message)
    (h : c ≠ chatId) :
    (pollChat s chatId fetched).messages c = s.messages c := by
  rw [pollChat]
  by_cases he : (filterNewMessages fetched (s.messages chatId)).isEmpty
  · rw [if_pos he]
  · rw [if_neg he]
    cases fetched.head? with
    | some latest =>
        simp only [updateChat_messages_eq]
        exact foldl_addMessage_messages_other _ _ _ _ h
    | none => exact foldl_addMessage_messages_other _ _ _ _ h

lemma pollSelected_messages_self (s : AppState) (selId : String) (fetched : List Message) :
    (pollSelected s selId fetched).messages selId
      = s.messages selId ++ filterNewMessages fetched (s.messages selId) :=
  foldl_addMessage_messages_self _ _ _

lemma pollSelected_messages_other (s : AppState) (selId c : String) (fetched : List Message)
    (h : c ≠ selId) :
    (pollSelected s selId fetched).messages c = s.messages c :=
  foldl_addMessage_messages_other _ _ _ _ h

lemma pollChatCaught_messages_other (fetch : String → Except String (List Message))
    (s : AppState) (d c : String) (h : c ≠ d) :
    (pollChatCaught fetch s d).messages c = s.messages c := by
  rw [pollChatCaught]
  cases fetch d with
  | error e => rfl
  | ok msgs => exact pollChat_messages_other _ _ _ _ h

lemma foldl_pollChatCaught_messages_not_mem (fetch : String → Except String (List Message))
    (ids : List String) (s : AppState) (c : String) (hc : ¬ c ∈ ids) :
    ((ids.foldl (pollChatCaught fetch) s).messages c) = s.messages c := by
  induction ids generalizing s with
  | nil => rfl
  | cons d t ih =>
      rw [List.foldl_cons,
        ih _ (fun h => hc (List.mem_cons_of_mem d h)),
        pollChatCaught_messages_other fetch s d c
          (fun h => hc (h ▸ List.mem_cons_self d t))]

lemma foldl_pollChatCaught_messages_mem (fetch : String → Except String (List Message))
    (ids : List String) (s : AppState) (c : String)
    (hnd : ids.Nodup) (hc : c ∈ ids) :
    ((ids.foldl (pollChatCaught fetch) s).messages c)
      = s.messages c ++ (match fetch c with
          | Except.ok msgs => filterNewMessages msgs (s.messages c)
          | Except.error _ => []) := by
  induction ids generalizing s with
  | nil => cases hc
  | cons d t ih =>
      rcases List.nodup_cons.mp hnd with ⟨hdt, hndt⟩
      by_cases hdc : d = c
      · subst hdc
        rw [List.foldl_cons, foldl_pollChatCaught_messages_not_mem fetch t _ d hdt]
        rw [pollChatCaught]
        cases hf : fetch d with
        | error e => simp
        | ok msgs => exact pollChat_messages_self _ _ _
      · have hct : c ∈ t := by
          rcases List.mem_cons.mp hc with h | h
          · exact absurd h.symm hdc
          · exact h
        rw [List.foldl_cons, ih _ hndt hct,
          pollChatCaught_messages_other fetch s d c (fun h => hdc h.symm)]

/-- C1: the poll-cycle deduplication is identity-based, idempotent and
order-independent: a fetched message is admitted only when no stored message
of the chat has the same id; re-running the same batch against the store
produced by the first run admits nothing; and a permuted batch admits a
permutation of the same messages. -/
theorem c1_dedup_idempotent_order_independent
    (s : AppState) (chatId : String) (batch batch2 : List Message)
    (hperm : batch2.Perm batch) :
    (∀ m ∈ filterNewMessages batch (s.messages chatId),
      ∀ ex ∈ s.messages chatId, ¬ ex.id = m.id) ∧
    filterNewMessages batch ((pollChat s chatId batch).messages chatId) = [] ∧
    (filterNewMessages batch2 (s.messages chatId)).Perm
      (filterNewMessages batch (s.messages chatId)) := by
  refine ⟨?_, ?_, hperm.filter _⟩
  · intro m hm ex hex heq
    have h2 := (List.mem_filter.mp hm).2
    rw [Bool.not_eq_true'] at h2
    have hany : ((s.messages chatId).any (fun existing => existing.id == m.id)) = true :=
      List.any_eq_true.mpr ⟨ex, hex, by simp [heq]⟩
    rw [h2] at hany
    cases hany
  · rw [pollChat_messages_self]
    apply List.filter_eq_nil_iff.mpr
    intro m hm hcontra
    rw [Bool.not_eq_true'] at hcontra
    have hany : ((s.messages chatId ++ filterNewMessages batch (s.messages chatId)).any
        (fun existing => existing.id == m.id)) = true := by
      rw [List.any_append]
      by_cases hcur : ((s.messages chatId).any (fun existing => existing.id == m.id)) = true
      · rw [hcur, Bool.true_or]
      · have hfalse : ((s.messages chatId).any (fun existing => existing.id == m.id)) = false :=
          Bool.not_eq_true _ ▸ eq_false_of_ne_true hcur
        have hmem : m ∈ filterNewMessages batch (s.messages chatId) :=
          List.mem_filter.mpr ⟨hm, by rw [hfalse]; rfl⟩
        have hnew : ((filterNewMessages batch (s.messages chatId)).any
            (fun existing => existing.id == m.id)) = true :=
          List.any_eq_true.mpr ⟨m, hmem, by simp⟩
        rw [hnew, Bool.or_true]
    rw [hcontra] at hany
    cases hany

/-- A concrete incoming message for the C1 and C5 witnesses. -/
def sampleMessage : Message :=
  { id := "msg-1", chat_id := "chat-signal", platform_message_id := none,
    direction := MessageDirection.INCOMING, status := none,
    content := some "hi", content_type := none, is_deleted := false,
    ai_generated := false, platform_timestamp := none, delivered_at := none,
    read_at := none, created_at := "2024-01-01", is_reply := false,
    reply_to_content := none, sender_name := none }

/-- Witness for C1 at a concrete store, chat and one-message batch, with the
reversed batch as the permutation. -/
theorem c1_dedup_idempotent_order_independent_witness :
    (∀ m ∈ filterNewMessages [sampleMessage] (sampleState.messages "chat-signal"),
      ∀ ex ∈ sampleState.messages "chat-signal", ¬ ex.id = m.id) ∧
    filterNewMessages [sampleMessage]
      ((pollChat sampleState "chat-signal" [sampleMessage]).messages "chat-signal") = [] ∧
    (filterNewMessages [sampleMessage].reverse (sampleState.messages "chat-signal")).Perm
      (filterNewMessages [sampleMessage] (sampleState.messages "chat-signal")) :=
  c1_dedup_idempotent_order_independent sampleState "chat-signal"
    [sampleMessage] [sampleMessage].reverse (List.reverse_perm [sampleMessage])

lemma pollForUpdates_messages_of_active (fetch : String → Except String (List Message))
    (s : AppState) (c : String) (hc : c ∈ activeChatIds s) :
    (pollForUpdates fetch s).messages c
      = ((activeChatIds s).foldl (pollChatCaught fetch) s).messages c := by
  simp only [pollForUpdates]
  cases hsel : s.selectedChatId with
  | none => rfl
  | some sel =>
      dsimp only
      by_cases hin : ((activeChatIds s).contains sel) = true
      · rw [if_pos hin]
      · rw [if_neg hin]
        have hne : c ≠ sel := by
          intro h
          exact hin (List.elem_iff.mpr (h ▸ hc))
        rw [pollSelectedCaught]
        cases fetch sel with
        | error e => rfl
        | ok msgs => exact pollSelected_messages_other _ _ _ _ hne

/-- C5: per-conversation failures are isolated.  For every conversation of
the cycle's active list: if its fetch succeeds, its new messages are stored
— no matter which other conversations' fetches fail — and if its fetch
fails, only its own store entry is left unchanged; the cycle itself always
runs to completion over the whole list. -/
theorem c5_per_conversation_isolation
    (fetch : String → Except String (List Message)) (s : AppState)
    (hnd : (activeChatIds s).Nodup) :
    ∀ c ∈ activeChatIds s,
      (∀ msgs, fetch c = Except.ok msgs →
        (pollForUpdates fetch s).messages c
          = s.messages c ++ filterNewMessages msgs (s.messages c)) ∧
      (∀ e, fetch c = Except.error e →
        (pollForUpdates fetch s).messages c = s.messages c) := by
  intro c hc
  rw [pollForUpdates_messages_of_active fetch s c hc,
    foldl_pollChatCaught_messages_mem fetch _ s c hnd hc]
  constructor
  · intro msgs hf
    rw [hf]
  · intro e hf
    rw [hf]
    simp

/-- Witness for C5 at a concrete state, the concrete active chat
`chat-signal`, and a concrete fetch oracle. -/
theorem c5_per_conversation_isolation_witness :
    (∀ msgs, (fun cid => if cid == "chat-signal"
          then Except.ok [sampleMessage] else Except.error "down") "chat-signal"
          = Except.ok msgs →
      (pollForUpdates (fun cid => if cid == "chat-signal"
          then Except.ok [sampleMessage] else Except.error "down") sampleState).messages
            "chat-signal"
        = sampleState.messages "chat-signal"
            ++ filterNewMessages msgs (sampleState.messages "chat-signal")) ∧
    (∀ e, (fun cid => if cid == "chat-signal"
          then Except.ok [sampleMessage] else Except.error "down") "chat-signal"
          = Except.error e →
      (pollForUpdates (fun cid => if cid == "chat-signal"
          then Except.ok [sampleMessage] else Except.error "down") sampleState).messages
            "chat-signal"
        = sampleState.messages "chat-signal") :=
  c5_per_conversation_isolation
    (fun cid => if cid == "chat-signal" then Except.ok [sampleMessage] else Except.error "down")
    sampleState (by decide) "chat-signal" (by decide)

lemma foldl_pollChatCaught_congr (f g : String → Except String (List Message))
    (ids : List String) (s : AppState) (h : ∀ c ∈ ids, f c = g c) :
    ids.foldl (pollChatCaught f) s = ids.foldl (pollChatCaught g) s := by
  induction ids generalizing s with
  | nil => rfl
  | cons d t ih =>
      rw [List.foldl_cons, List.foldl_cons]
      have hd : pollChatCaught f s d = pollChatCaught g s d := by
        rw [pollChatCaught, pollChatCaught, h d (List.mem_cons_self d t)]
      rw [hd]
      exact ih _ (fun c hc => h c (List.mem_cons_of_mem d hc))

/-- C6: each poll cycle touches a bounded conversation set: exactly the
first 5 active chat ids plus, when a chat is selected and not already among
them, that chat; so at most 6 conversations are fetched, the fetched set is
characterized by that membership condition, the selected chat is always
included, and the cycle's result depends on the fetch oracle only at those
ids. -/
theorem c6_poll_cycle_bounded_conversations (s : AppState)
    (f g : String → Except String (List Message))
    (hagree : ∀ c ∈ polledChatIds s, f c = g c) :
    pollForUpdates f s = pollForUpdates g s ∧
    (polledChatIds s).length ≤ 6 ∧
    activeChatIds s
      = ((s.chats.filter (fun chat => chat.is_active)).map (fun chat => chat.id)).take 5 ∧
    (∀ c, c ∈ polledChatIds s ↔ (c ∈ activeChatIds s ∨ s.selectedChatId = some c)) ∧
    (∀ sel, s.selectedChatId = some sel → sel ∈ polledChatIds s) := by
  have hids : ∀ c ∈ activeChatIds s, c ∈ polledChatIds s := by
    intro c hc
    simp only [polledChatIds]
    exact List.mem_append_left _ hc
  refine ⟨?_, ?_, rfl, ?_, ?_⟩
  · simp only [pollForUpdates]
    rw [foldl_pollChatCaught_congr f g _ s (fun c hc => hagree c (hids c hc))]
    cases hsel : s.selectedChatId with
    | none => rfl
    | some sel =>
        dsimp only
        by_cases hin : ((activeChatIds s).contains sel) = true
        · rw [if_pos hin, if_pos hin]
        · rw [if_neg hin, if_neg hin]
          have hselmem : sel ∈ polledChatIds s := by
            simp only [polledChatIds, hsel, if_neg hin]
            exact List.mem_append_right _ (List.mem_singleton.mpr rfl)
          rw [pollSelectedCaught, pollSelectedCaught, hagree sel hselmem]
  · simp only [polledChatIds, List.length_append]
    have h1 : (activeChatIds s).length ≤ 5 := by
      rw [activeChatIds, List.length_take]
      exact min_le_left _ _
    have h2 : (match s.selectedChatId with
        | some sel => if (activeChatIds s).contains sel then ([] : List String) else [sel]
        | none => []).length ≤ 1 := by
      cases s.selectedChatId with
      | none => simp
      | some sel =>
          dsimp only
          by_cases hin : ((activeChatIds s).contains sel) = true
          · rw [if_pos hin]
            simp
          · rw [if_neg hin]
            simp
    omega
  · intro c
    cases hsel : s.selectedChatId with
    | none =>
        simp only [polledChatIds, hsel, List.append_nil]
        constructor
        · exact fun h => Or.inl h
        · rintro (h | h)
          · exact h
          · cases h
    | some sel =>
        by_cases hin : ((activeChatIds s).contains sel) = true
        · simp only [polledChatIds, hsel, if_pos hin, List.append_nil]
          constructor
          · exact fun h => Or.inl h
          · rintro (h | h)
            · exact h
            · exact (Option.some_inj.mp h) ▸ List.elem_iff.mp hin
        · simp only [polledChatIds, hsel, if_neg hin, List.mem_append, List.mem_singleton]
          constructor
          · rintro (h | h)
            · exact Or.inl h
            · exact Or.inr (h ▸ rfl)
          · rintro (h | h)
            · exact Or.inl h
            · exact Or.inr (Option.some_inj.mp h).symm
  · intro sel hsel
    simp only [polledChatIds, hsel]
    by_cases hin : ((activeChatIds s).contains sel) = true
    · exact List.mem_append_left _ (List.elem_iff.mp hin)
    · rw [if_neg hin]
      exact List.mem_append_right _ (List.mem_singleton.mpr rfl)

/-- Witness for C6 at a concrete state with two agreeing fetch oracles. -/
theorem c6_poll_cycle_bounded_conversations_witness :
    pollForUpdates (fun _ => Except.error "down") sampleState
      = pollForUpdates (fun _ => Except.error "down") sampleState ∧
    (polledChatIds sampleState).length ≤ 6 ∧
    activeChatIds sampleState
      = ((sampleState.chats.filter (fun chat => chat.is_active)).map
          (fun chat => chat.id)).take 5 ∧
    (∀ c, c ∈ polledChatIds sampleState ↔
      (c ∈ activeChatIds sampleState ∨ sampleState.selectedChatId = some c)) ∧
    (∀ sel, sampleState.selectedChatId = some sel → sel ∈ polledChatIds sampleState) :=
  c6_poll_cycle_bounded_conversations sampleState
    (fun _ => Except.error "down") (fun _ => Except.error "down")
    (fun _ _ => rfl)

/-- The mutable fields of `RealtimeService`
(src/frontend/src/services/realtime.ts, lines 4-7).  The `pollInterval`
timer handle is modelled by the period in milliseconds of the scheduled
timer: `some n` when a timer with period `n` is active, `none` otherwise. -/
structure RealtimeServiceState where
  pollIntervalMs : Option Nat
  isPolling : Bool
deriving DecidableEq, Repr

/-- `RealtimeService.start` (src/frontend/src/services/realtime.ts, lines
9-23): returns unchanged when a timer already exists, otherwise schedules
the poll timer with the literal period `5000` and sets `isPolling`.  The
operation takes no interval argument: the period is embedded in the body. -/
def RealtimeService.start (st : RealtimeServiceState) : RealtimeServiceState :=
  match st.pollIntervalMs with
  | some _ => st
  | none => { pollIntervalMs := some 5000, isPolling := true }

/-- Modelled from the spec: the backend Sync Scheduler
(`tools/alibaba_sync_manager.py`) is not under src/ — only its caller
(src/backend/start_periodic_sync.sh: `scheduler --interval 5`) and its
configuration table (src/backend/README-ALIBABA-SYNC.md:
`SYNC_INTERVAL_MINUTES`, default 5) are.  Its cadence in minutes is an
option with documented default 5. -/
def schedulerIntervalMinutes (opt : Option Nat) : Nat := opt.getD 5

/-- C7 counterexample: in the frontend polling loop the cadence is not a
parameter of the scheduling operation — `RealtimeService.start` takes no
interval and schedules the hard-coded literal 5000 ms from any idle state,
as shown at two distinct concrete states. -/
theorem c7_interval_hardcoded_counterexample :
    RealtimeService.start { pollIntervalMs := none, isPolling := false }
      = { pollIntervalMs := some 5000, isPolling := true } ∧
    RealtimeService.start { pollIntervalMs := none, isPolling := true }
      = { pollIntervalMs := some 5000, isPolling := true } :=
  ⟨rfl, rfl⟩

/-- C7 (amended): the backend scheduler's cadence is a configuration option
with default 5 minutes, while the frontend polling loop always schedules at
the hard-coded 5000 ms literal embedded in `start`. -/
theorem c7_interval_amended (st : RealtimeServiceState) (n : Nat)
    (hidle : st.pollIntervalMs = none) :
    (RealtimeService.start st).pollIntervalMs = some 5000 ∧
    schedulerIntervalMinutes none = 5 ∧
    schedulerIntervalMinutes (some n) = n := by
  refine ⟨?_, rfl, rfl⟩
  rw [RealtimeService.start, hidle]

/-- Witness for the amended C7 at a concrete idle service state and a
concrete configured interval. -/
theorem c7_interval_amended_witness :
    (RealtimeService.start
        { pollIntervalMs := none, isPolling := false }).pollIntervalMs = some 5000 ∧
    schedulerIntervalMinutes none = 5 ∧
    schedulerIntervalMinutes (some 7) = 7 :=
  c7_interval_amended { pollIntervalMs := none, isPolling := false } 7 rfl

/-- Modelled from the spec: the backend Deduplicator is not under src/ —
only declarations of it exist (src/backend/README-ALIBABA-SYNC.md and
PRODUCTION_READY_SUMMARY.md mention hash-based content deduplication).
Spec §3: a Normalized Message carries content text, direction and
timestamp; its deduplication identity is a content hash over
content + direction + coarse timestamp bucket. -/
structure NormalizedMessage where
  content : String
  direction : MessageDirection
  timestamp : Nat
deriving DecidableEq, Repr

/-- Modelled from the spec: a content hash over the message text
(a 32-bit rolling hash of the characters). -/
def contentHash (s : String) : Nat :=
  s.data.foldl (fun h c => (h * 31 + c.toNat) % 2 ^ 32) 7

/-- Modelled from the spec: the coarse timestamp bucket. -/
def timestampBucket (bucketSize ts : Nat) : Nat := ts / bucketSize

/-- Modelled from the spec: the deduplication identity — content hash
combined with direction and coarse timestamp bucket. -/
def messageIdentity (bucketSize : Nat) (m : NormalizedMessage) : Nat :=
  (contentHash m.content * 2
      + (match m.direction with
         | MessageDirection.INCOMING => 0
         | MessageDirection.OUTGOING => 1)) * 2 ^ 32
    + timestampBucket bucketSize m.timestamp % 2 ^ 32

/-- Modelled from the spec (§4.5):
`filterNew(chatId, normalizedMessages, existingIdentitiesLookup)` returns
only the messages whose identity is absent from the existing-identity set
for that chat. -/
def filterNew (bucketSize : Nat) (chatId : String)
    (normalizedMessages : List NormalizedMessage)
    (existingIdentitiesLookup : String → List Nat) : List NormalizedMessage :=
  normalizedMessages.filter
    (fun m => !((existingIdentitiesLookup chatId).contains (messageIdentity bucketSize m)))

lemma not_contains_iff_not_mem (l : List Nat) (x : Nat) :
    (!(l.contains x)) = true ↔ ¬ x ∈ l := by
  rw [Bool.not_eq_true']
  constructor
  · intro h hmem
    have he := List.elem_iff.mpr hmem
    rw [show l.contains x = l.elem x from rfl, he] at h
    cases h
  · intro h
    cases hb : l.contains x
    · rfl
    · exact absurd (List.elem_iff.mp hb) h

/-- C2: the deduplication identity is a pure function of content, direction
and timestamp bucket — equal triples give equal identities, independently
of extraction order — and `filterNew` returns exactly the batch messages
whose identity is absent from the chat's existing-identity set. -/
theorem c2_dedup_identity_content_hash (bucketSize : Nat) (m1 m2 : NormalizedMessage)
    (hcontent : m1.content = m2.content) (hdir : m1.direction = m2.direction)
    (hbucket : timestampBucket bucketSize m1.timestamp
      = timestampBucket bucketSize m2.timestamp)
    (chatId : String) (batch : List NormalizedMessage)
    (existingIdentitiesLookup : String → List Nat) :
    messageIdentity bucketSize m1 = messageIdentity bucketSize m2 ∧
    (∀ m, m ∈ filterNew bucketSize chatId batch existingIdentitiesLookup ↔
      (m ∈ batch ∧ ¬ messageIdentity bucketSize m ∈ existingIdentitiesLookup chatId)) ∧
    (∀ batch2 : List NormalizedMessage, batch2.Perm batch →
      (batch2.map (messageIdentity bucketSize)).Perm
        (batch.map (messageIdentity bucketSize))) := by
  refine ⟨?_, ?_, fun batch2 hp => hp.map _⟩
  · rw [messageIdentity, messageIdentity, hcontent, hdir, hbucket]
  · intro m
    rw [filterNew, List.mem_filter, not_contains_iff_not_mem]

/-- Witness for C2 at two concrete messages sharing content, direction and
bucket, and a concrete one-message batch. -/
theorem c2_dedup_identity_content_hash_witness :
    messageIdentity 60
        { content := "ok,Daniel", direction := MessageDirection.INCOMING, timestamp := 30 }
      = messageIdentity 60
        { content := "ok,Daniel", direction := MessageDirection.INCOMING, timestamp := 50 } ∧
    (∀ m, m ∈ filterNew 60 "chat-1"
        [{ content := "ok,Daniel", direction := MessageDirection.INCOMING, timestamp := 30 }]
        (fun _ => []) ↔
      (m ∈ [{ content := "ok,Daniel", direction := MessageDirection.INCOMING,
              timestamp := 30 }] ∧
        ¬ messageIdentity 60 m ∈ (fun (_ : String) => ([] : List Nat)) "chat-1")) ∧
    (∀ batch2 : List NormalizedMessage,
      batch2.Perm
        [{ content := "ok,Daniel", direction := MessageDirection.INCOMING, timestamp := 30 }] →
      (batch2.map (messageIdentity 60)).Perm
        ([{ content := "ok,Daniel", direction := MessageDirection.INCOMING,
            timestamp := 30 }].map (messageIdentity 60))) :=
  c2_dedup_identity_content_hash 60
    { content := "ok,Daniel", direction := MessageDirection.INCOMING, timestamp := 30 }
    { content := "ok,Daniel", direction := MessageDirection.INCOMING, timestamp := 50 }
    rfl rfl (by decide) "chat-1"
    [{ content := "ok,Daniel", direction := MessageDirection.INCOMING, timestamp := 30 }]
    (fun _ => [])

/-- Modelled from the spec: the backend checkpoint handling (§4.3, §4.6) is
not under src/.  `advanceCheckpoint(account, handle, newWatermark)` stores
the new watermark; it is invoked only on the successful branch of a cycle. -/
def advanceCheckpoint (_cp newWatermark : Nat) : Nat := newWatermark

/-- Modelled from the spec (§4.4): the Extractor filters fetched messages
by `sinceCheckpoint` itself, never trusting upstream filtering. -/
def extractorSinceFilter (sinceCheckpoint : Nat) (fetchedTs : List Nat) : List Nat :=
  fetchedTs.filter (fun t => decide (sinceCheckpoint < t))

/-- Modelled from the spec (§3): the watermark of a successful cycle — the
highest timestamp already persisted, starting from the current checkpoint. -/
def cycleWatermark (cp : Nat) (persistedTs : List Nat) : Nat :=
  persistedTs.foldl max cp

/-- Modelled from the spec (§4.3): the per-(account, handle) checkpoint
after one sync cycle.  `none` is a failed cycle (no persistence happened,
`advanceCheckpoint` is not called); `some fetchedTs` is a successful cycle
over the fetched timestamps. -/
def syncCycleCheckpoint (cp : Nat) (outcome : Option (List Nat)) : Nat :=
  match outcome with
  | none => cp
  | some fetchedTs =>
      advanceCheckpoint cp (cycleWatermark cp (extractorSinceFilter cp fetchedTs))

lemma le_foldl_max (l : List Nat) (a : Nat) : a ≤ l.foldl max a := by
  induction l generalizing a with
  | nil => exact Nat.le_refl a
  | cons x t ih => exact Nat.le_trans (Nat.le_max_left a x) (ih (max a x))

/-- C3: the sync checkpoint never decreases: a successful cycle calls
`advanceCheckpoint` with a watermark at least the previous checkpoint (so
the new checkpoint is at least the old one), and a failed cycle — where no
batch was persisted — leaves the checkpoint unchanged. -/
theorem c3_checkpoint_monotonic (cp : Nat) (fetchedTs : List Nat) :
    cp ≤ cycleWatermark cp (extractorSinceFilter cp fetchedTs) ∧
    cp ≤ syncCycleCheckpoint cp (some fetchedTs) ∧
    syncCycleCheckpoint cp none = cp := by
  refine ⟨le_foldl_max _ _, ?_, rfl⟩
  exact le_foldl_max _ _

/-- Modelled from the spec (§4.3 backoff) and the configuration table of
src/backend/README-ALIBABA-SYNC.md: `RATE_LIMIT_INITIAL_DELAY` (default
60 s), `RATE_LIMIT_BACKOFF_FACTOR` (default 2), `RATE_LIMIT_MAX_DELAY`
(default 3600 s).  The backend code using them is not under src/. -/
structure BackoffParams where
  initial_delay : Nat
  backoff_factor : Nat
  max_delay : Nat
deriving DecidableEq, Repr

/-- The documented defaults of the three backoff environment variables. -/
def defaultBackoffParams : BackoffParams :=
  { initial_delay := 60, backoff_factor := 2, max_delay := 3600 }

/-- Modelled from the spec (§3): the Account's per-sync error bookkeeping. -/
structure AccountSyncState where
  consecutive_error_count : Nat
  next_retry_at : Nat
deriving DecidableEq, Repr

/-- Modelled from the spec (§4.3):
`min(max_delay, initial_delay * backoff_factor^consecutive_error_count)`. -/
def backoffDelay (P : BackoffParams) (k : Nat) : Nat :=
  min P.max_delay (P.initial_delay * P.backoff_factor ^ k)

/-- Modelled from the spec (§4.3, §7): a failed cycle of a retryable error
class computes `next_retry_at = now + backoffDelay` from the current error
count and increments the count. -/
def recordFailure (P : BackoffParams) (st : AccountSyncState) (now : Nat) :
    AccountSyncState :=
  { consecutive_error_count := st.consecutive_error_count + 1,
    next_retry_at := now + backoffDelay P st.consecutive_error_count }

/-- Modelled from the spec (§4.3): a successful cycle resets the error
count to zero and `next_retry_at` to immediate. -/
def recordSuccess (_st : AccountSyncState) (now : Nat) : AccountSyncState :=
  { consecutive_error_count := 0, next_retry_at := now }

/-- C4: after a retryable failure `next_retry_at` equals
`now + min(max_delay, initial_delay * backoff_factor^consecutive_error_count)`;
over consecutive failures it strictly increases while the exponential term
is below `max_delay` and plateaus at `now + max_delay` once it reaches it;
a single success resets the count to zero and the retry time to now. -/
theorem c4_backoff_growth_and_reset (P : BackoffParams) (st : AccountSyncState) (now : Nat)
    (hf : 2 ≤ P.backoff_factor) (hi : 0 < P.initial_delay) :
    (recordFailure P st now).next_retry_at
      = now + min P.max_delay
          (P.initial_delay * P.backoff_factor ^ st.consecutive_error_count) ∧
    (P.initial_delay * P.backoff_factor ^ st.consecutive_error_count < P.max_delay →
      (recordFailure P st now).next_retry_at
        < (recordFailure P (recordFailure P st now) now).next_retry_at) ∧
    (P.max_delay ≤ P.initial_delay * P.backoff_factor ^ st.consecutive_error_count →
      (recordFailure P st now).next_retry_at = now + P.max_delay ∧
      (recordFailure P (recordFailure P st now) now).next_retry_at
        = now + P.max_delay) ∧
    (recordSuccess st now).consecutive_error_count = 0 ∧
    (recordSuccess st now).next_retry_at = now := by
  have hfk : 0 < P.backoff_factor ^ st.consecutive_error_count :=
    pow_pos (by omega) _
  have h0 : 0 < P.initial_delay * P.backoff_factor ^ st.consecutive_error_count :=
    Nat.mul_pos hi hfk
  have hstep : P.initial_delay * P.backoff_factor ^ st.consecutive_error_count
      < P.initial_delay * P.backoff_factor ^ (st.consecutive_error_count + 1) := by
    have h1 := mul_lt_mul_of_pos_left
      (show (1 : Nat) < P.backoff_factor by omega) h0
    rw [mul_one] at h1
    rw [pow_succ, ← mul_assoc]
    exact h1
  refine ⟨rfl, ?_, ?_, rfl, rfl⟩
  · intro hlt
    simp only [recordFailure, backoffDelay]
    apply Nat.add_lt_add_left
    rw [min_eq_right (le_of_lt hlt)]
    exact lt_min_iff.mpr ⟨hlt, hstep⟩
  · intro hge
    constructor
    · simp only [recordFailure, backoffDelay]
      rw [min_eq_left hge]
    · simp only [recordFailure, backoffDelay]
      rw [min_eq_left (le_trans hge (le_of_lt hstep))]

/-- Witness for C4 at the documented default parameters, a fresh account
state and a concrete clock. -/
theorem c4_backoff_growth_and_reset_witness :
    (recordFailure defaultBackoffParams
        { consecutive_error_count := 0, next_retry_at := 0 } 100).next_retry_at
      = 100 + min defaultBackoffParams.max_delay
          (defaultBackoffParams.initial_delay * defaultBackoffParams.backoff_factor ^
            ({ consecutive_error_count := 0,
               next_retry_at := 0 } : AccountSyncState).consecutive_error_count) ∧
    (defaultBackoffParams.initial_delay * defaultBackoffParams.backoff_factor ^
        ({ consecutive_error_count := 0,
           next_retry_at := 0 } : AccountSyncState).consecutive_error_count
        < defaultBackoffParams.max_delay →
      (recordFailure defaultBackoffParams
          { consecutive_error_count := 0, next_retry_at := 0 } 100).next_retry_at
        < (recordFailure defaultBackoffParams
            (recordFailure defaultBackoffParams
              { consecutive_error_count := 0, next_retry_at := 0 } 100) 100).next_retry_at) ∧
    (defaultBackoffParams.max_delay
        ≤ defaultBackoffParams.initial_delay * defaultBackoffParams.backoff_factor ^
          ({ consecutive_error_count := 0,
             next_retry_at := 0 } : AccountSyncState).consecutive_error_count →
      (recordFailure defaultBackoffParams
          { consecutive_error_count := 0, next_retry_at := 0 } 100).next_retry_at
        = 100 + defaultBackoffParams.max_delay ∧
      (recordFailure defaultBackoffParams
          (recordFailure defaultBackoffParams
            { consecutive_error_count := 0, next_retry_at := 0 } 100) 100).next_retry_at
        = 100 + defaultBackoffParams.max_delay) ∧
    (recordSuccess { consecutive_error_count := 0, next_retry_at := 0 } 100).consecutive_error_count
      = 0 ∧
    (recordSuccess { consecutive_error_count := 0, next_retry_at := 0 } 100).next_retry_at
      = 100 :=
  c4_backoff_growth_and_reset defaultBackoffParams
    { consecutive_error_count := 0, next_retry_at := 0 } 100
    (by decide) (by decide)
